import Mathlib

/-!
# Verification of the LoadStar freight-intelligence agent stream parser

Shallow embedding of the core logic of `src/streamlit/streamlit_app.py`:
the SQL detector `_is_sql`, the nested payload searches `find_sql_in_data`
and `find_description_in_data`, the status classifier `categorize_status`,
the SQL highlighter `_highlight_sql`, the streaming reducer
`call_cortex_agent_streaming`, its chat-consumer loop, and the
non-streaming fallback `call_cortex_agent`.

JSON payloads are modelled by the inductive type `JVal`; Python string
operations (`strip`, `upper`, `replace`, `in`, slicing) are re-implemented
over `List Char` so that all definitions reduce in the kernel.
-/

namespace LoadStar

/-! ## Python-style string primitives -/

/-- The characters Python's `str.strip()` removes (ASCII whitespace). -/
def isPySpace (c : Char) : Bool :=
  c = ' ' || c = '\t' || c = '\n' || c = '\r' || c = '\x0b' || c = '\x0c'

/-- Python `str.strip()`: remove leading and trailing whitespace. -/
def pyStrip (s : String) : String :=
  String.mk (((s.data.dropWhile isPySpace).reverse.dropWhile isPySpace).reverse)

/-- `cs` begins with `pat` (character-wise). -/
def listStartsWith : List Char → List Char → Bool
  | _, [] => true
  | [], _ :: _ => false
  | c :: cs, p :: ps => c = p && listStartsWith cs ps

/-- Python `str.startswith`. -/
def pyStartsWith (s p : String) : Bool :=
  listStartsWith s.data p.data

/-- Python `str.upper()` (ASCII; the source only compares ASCII keywords). -/
def pyUpper (s : String) : String :=
  String.mk (s.data.map Char.toUpper)

/-- Python `str.lower()` (ASCII). -/
def pyLower (s : String) : String :=
  String.mk (s.data.map Char.toLower)

/-- One step of Python `str.replace`: scan left to right, replacing each
non-overlapping occurrence of `pat` by `rep`.  Structured with explicit fuel
so that it reduces in the kernel; `fuel = length + 1` always suffices since
every step consumes at least one character. -/
def listReplaceGo (pat rep : List Char) : Nat → List Char → List Char
  | 0, cs => cs
  | _ + 1, [] => []
  | fuel + 1, c :: cs =>
    if pat ≠ [] ∧ listStartsWith (c :: cs) pat then
      rep ++ listReplaceGo pat rep fuel ((c :: cs).drop pat.length)
    else
      c :: listReplaceGo pat rep fuel cs

/-- Python `str.replace` (all occurrences, left to right, non-overlapping).
The source never calls it with an empty pattern. -/
def pyReplace (s pat rep : String) : String :=
  String.mk (listReplaceGo pat.data rep.data (s.data.length + 1) s.data)

/-- Number of non-overlapping occurrences of `pat` (Python `str.count`),
fuel-structured like `listReplaceGo`. -/
def listCountGo (pat : List Char) : Nat → List Char → Nat
  | 0, _ => 0
  | _ + 1, [] => 0
  | fuel + 1, c :: cs =>
    if pat ≠ [] ∧ listStartsWith (c :: cs) pat then
      1 + listCountGo pat fuel ((c :: cs).drop pat.length)
    else
      listCountGo pat fuel cs

/-- Count non-overlapping occurrences of `pat` in `s`. -/
def countSubstr (s pat : String) : Nat :=
  listCountGo pat.data (s.data.length + 1) s.data

/-- Python `pat in s` substring test (for non-empty `pat`). -/
def strContains (s pat : String) : Bool :=
  0 < countSubstr s pat

/-! ## JSON value model

`JVal` stands for the values produced by `json.loads`.  Objects are
association lists; Python dictionaries cannot hold duplicate keys, and
lookup returns the first binding. -/

inductive JVal where
  | jnull
  | jbool (b : Bool)
  | jnum (n : Int)
  | jstr (s : String)
  | jarr (items : List JVal)
  | jobj (fields : List (String × JVal))
  deriving Repr

/-- First binding for key `k` (Python `dict` indexing / `.get`). -/
def lookupField : List (String × JVal) → String → Option JVal
  | [], _ => none
  | (k', v) :: rest, k => if k' = k then some v else lookupField rest k

/-- Python truthiness of a decoded JSON value. -/
def jtruthy : JVal → Bool
  | .jnull => false
  | .jbool b => b
  | .jnum n => n ≠ 0
  | .jstr s => s ≠ ""
  | .jarr items => !items.isEmpty
  | .jobj fields => !fields.isEmpty

/-! ## SQL detector (`_is_sql`, lines 336-344 of the source) -/

/-- The keyword-prefix set `_SQL_STARTS`. -/
def _SQL_STARTS : List String :=
  ["SELECT", "WITH", "INSERT", "UPDATE", "DELETE",
   "CREATE", "ALTER", "DROP", "MERGE", "CALL",
   "SHOW", "DESCRIBE", "EXPLAIN", "GRANT", "REVOKE"]

/-- `_is_sql` on a string argument: false for the empty string, otherwise
strip, upper-case and test the keyword prefixes. -/
def _is_sql_str (text : String) : Bool :=
  if text = "" then false
  else
    let stripped := pyUpper (pyStrip text)
    _SQL_STARTS.any fun kw => pyStartsWith stripped kw

/-- `_is_sql` on an arbitrary decoded value: non-strings are rejected by the
`isinstance` check. -/
def _is_sql : JVal → Bool
  | .jstr s => _is_sql_str s
  | _ => false

/-! ## Nested payload searches (lines 347-396)

The source recursions carry a `depth` argument and return `None` as soon as
`depth > 5`.  Here the recursion is driven by the equivalent fuel value
`6 - depth`: a call at source depth `d ≤ 5` corresponds to `fuel = 6 - d > 0`,
and the `depth > 5` cut-off corresponds to `fuel = 0`. -/

/-- `for key in keys: if key in data and data[key] and _is_sql(data[key]):
return data[key]` — the named-key probes of `find_sql_in_data`. -/
def firstNamedSql (fs : List (String × JVal)) : List String → Option String
  | [] => none
  | k :: ks =>
    match lookupField fs k with
    | some v =>
      if jtruthy v && _is_sql v then
        match v with
        | .jstr s => some s
        | _ => none
      else firstNamedSql fs ks
    | none => firstNamedSql fs ks

/-- `for v in data.values(): result = recurse(v); if result: return result`
(a falsy — empty — result does not stop the scan). -/
def findSomeTruthy (f : JVal → Option String) : List JVal → Option String
  | [] => none
  | v :: rest =>
    match f v with
    | some r => if r ≠ "" then some r else findSomeTruthy f rest
    | none => findSomeTruthy f rest

/-- Fueled core of `find_sql_in_data`. -/
def find_sql_go : Nat → JVal → Option String
  | 0, _ => none
  | fuel + 1, data =>
    match data with
    | .jstr s =>
      let stripped := pyStrip s
      if _is_sql_str stripped then some stripped else none
    | .jobj fs =>
      match firstNamedSql fs ["sql", "generated_sql", "sql_query"] with
      | some r => some r
      | none =>
        match firstNamedSql fs ["query", "statement"] with
        | some r => some r
        | none => findSomeTruthy (find_sql_go fuel) (fs.map Prod.snd)
    | .jarr items => findSomeTruthy (find_sql_go fuel) items
    | _ => none
termination_by structural fuel _ => fuel

/-- `find_sql_in_data(data, depth)`: depth-bounded search for the first value
that looks like SQL, preferring the named fields. -/
def find_sql_in_data (data : JVal) (depth : Nat) : Option String :=
  if depth > 5 then none else find_sql_go (6 - depth) data

/-- `val = data.get(key); if val and isinstance(val, str) and not _is_sql(val):
return val.strip()` — the named-key probe of `find_description_in_data`. -/
def firstNamedDesc (fs : List (String × JVal)) : List String → Option String
  | [] => none
  | k :: ks =>
    match lookupField fs k with
    | some (.jstr v) =>
      if v ≠ "" && !_is_sql_str v then some (pyStrip v) else firstNamedDesc fs ks
    | _ => firstNamedDesc fs ks

/-- Fueled core of `find_description_in_data` (no plain-string branch). -/
def find_desc_go : Nat → JVal → Option String
  | 0, _ => none
  | fuel + 1, data =>
    match data with
    | .jobj fs =>
      match firstNamedDesc fs ["query", "statement"] with
      | some r => some r
      | none => findSomeTruthy (find_desc_go fuel) (fs.map Prod.snd)
    | .jarr items => findSomeTruthy (find_desc_go fuel) items
    | _ => none
termination_by structural fuel _ => fuel

/-- `find_description_in_data(data, depth)`: first `query`/`statement` field
whose value is a non-SQL string, used as a natural-language description. -/
def find_description_in_data (data : JVal) (depth : Nat) : Option String :=
  if depth > 5 then none else find_desc_go (6 - depth) data

/-! ## Status classifier (`categorize_status`, lines 541-551) -/

def planning_keywords : List String :=
  ["planning", "choosing", "rethinking", "reviewing", "next steps", "data sources"]

def tool_keywords : List String :=
  ["running", "streaming", "getting", "executing", "context", "sql"]

/-- Categorize a status message into planning or tool (default planning). -/
def categorize_status (message : String) : String :=
  let lower := pyLower message
  if planning_keywords.any fun kw => strContains lower kw then "planning"
  else if tool_keywords.any fun kw => strContains lower kw then "tool"
  else "planning"

/-! ## SQL highlighter (`_highlight_sql`, lines 554-613)

Each regex substitution of the source is re-implemented as a left-to-right
scanner over `List Char` with the same match semantics.  Fuel equal to
`length + 1` makes every scanner structurally recursive (each step consumes
at least one input character), so concrete outputs reduce in the kernel. -/

/-- Python `html.escape` with `quote=True`. -/
def html_escape (s : String) : String :=
  pyReplace (pyReplace (pyReplace (pyReplace (pyReplace s
    "&" "&amp;") "<" "&lt;") ">" "&gt;") "\x22" "&quot;") "\x27" "&#x27;"

/-- The opaque placeholder `"\x00HL{idx}\x00"` used by `_slot`. -/
def placeholderStr (i : Nat) : String :=
  "\x00HL" ++ toString i ++ "\x00"

def spanComment (frag : String) : String :=
  "<span style=\x22color:#5c6370;font-style:italic\x22>" ++ frag ++ "</span>"

def spanString (frag : String) : String :=
  "<span style=\x22color:#98c379\x22>" ++ frag ++ "</span>"

def kwOpen : String := "<span style=\x22color:#c678dd;font-weight:bold\x22>"

def fnOpen : String := "<span style=\x22color:#61afef\x22>"

def numOpen : String := "<span style=\x22color:#d19a66\x22>"

def spanClose : String := "</span>"

/-- Find the first `*/` in the input: returns the text before it and the text
after it. -/
def findClose : List Char → Option (List Char × List Char)
  | [] => none
  | '*' :: '/' :: rest => some ([], rest)
  | c :: rest => (findClose rest).map fun p => (c :: p.1, p.2)

/-- Pass 1a: `re.sub(r'/\*.*?\*/', slot, escaped, flags=DOTALL)` — replace
each block comment (non-greedy: up to the nearest `*/`) by a placeholder. -/
def blockGo : Nat → List Char → List String → List Char × List String
  | 0, cs, slots => (cs, slots)
  | _ + 1, [], slots => ([], slots)
  | fuel + 1, '/' :: '*' :: rest, slots =>
    (match findClose rest with
     | some (mid, after) =>
       let frag := spanComment ("/*" ++ String.mk mid ++ "*/")
       let ph := placeholderStr slots.length
       let (out, slots') := blockGo fuel after (slots ++ [frag])
       (ph.data ++ out, slots')
     | none =>
       -- no `*/` remains anywhere, so no further match is possible
       ('/' :: '*' :: rest, slots))
  | fuel + 1, c :: rest, slots =>
    let (out, slots') := blockGo fuel rest slots
    (c :: out, slots')

/-- Pass 1b: `re.sub(r'(--.*?)$', slot, escaped, flags=MULTILINE)` — replace
each line comment (`--` up to but excluding the newline). -/
def lineGo : Nat → List Char → List String → List Char × List String
  | 0, cs, slots => (cs, slots)
  | _ + 1, [], slots => ([], slots)
  | fuel + 1, '-' :: '-' :: rest, slots =>
    let line := rest.takeWhile (· ≠ '\n')
    let after := rest.dropWhile (· ≠ '\n')
    let frag := spanComment ("--" ++ String.mk line)
    let ph := placeholderStr slots.length
    let (out, slots') := lineGo fuel after (slots ++ [frag])
    (ph.data ++ out, slots')
  | fuel + 1, c :: rest, slots =>
    let (out, slots') := lineGo fuel rest slots
    (c :: out, slots')

/-- Pass 1c: `re.sub(r"(&#x27;[^&]*?&#x27;)", slot, escaped)` — replace each
HTML-escaped single-quoted literal whose content holds no `&`. -/
def stringGo : Nat → List Char → List String → List Char × List String
  | 0, cs, slots => (cs, slots)
  | _ + 1, [], slots => ([], slots)
  | fuel + 1, '&' :: '#' :: 'x' :: '2' :: '7' :: ';' :: rest, slots =>
    (match rest.dropWhile (· ≠ '&') with
     | '&' :: '#' :: 'x' :: '2' :: '7' :: ';' :: rest2 =>
       let content := rest.takeWhile (· ≠ '&')
       let frag := spanString ("&#x27;" ++ String.mk content ++ "&#x27;")
       let ph := placeholderStr slots.length
       let (out, slots') := stringGo fuel rest2 (slots ++ [frag])
       (ph.data ++ out, slots')
     | _ =>
       -- the first `&` after this opener does not begin `&#x27;`: the match
       -- fails here, and no later opener can begin inside the `&`-free run
       let (out, slots') := stringGo fuel rest slots
       ("&#x27;".data ++ out, slots'))
  | fuel + 1, c :: rest, slots =>
    let (out, slots') := stringGo fuel rest slots
    (c :: out, slots')

/-- Python `\w` on ASCII input. -/
def isWordChar (c : Char) : Bool :=
  c.isAlphanum || c = '_'

/-- `\b` holds right after the match iff the rest starts with a non-word
character (or is empty). -/
def headNonWord : List Char → Bool
  | [] => true
  | c :: _ => !isWordChar c

/-- Case-insensitive literal match of `pat` at the head of `cs`; returns the
matched original characters and the remainder. -/
def matchCI : List Char → List Char → Option (List Char × List Char)
  | [], cs => some ([], cs)
  | _ :: _, [] => none
  | p :: ps, c :: cs =>
    if c.toUpper = p.toUpper then (matchCI ps cs).map fun q => (c :: q.1, q.2)
    else none

/-- The keyword list of the `kw` regex, in alternation order. -/
def SQL_KEYWORDS : List String :=
  ["SELECT", "FROM", "WHERE", "JOIN", "LEFT", "RIGHT", "INNER", "OUTER",
   "CROSS", "FULL", "ON", "AND", "OR", "NOT", "IN", "IS", "NULL",
   "AS", "ORDER", "BY", "GROUP", "HAVING", "LIMIT", "OFFSET", "UNION",
   "ALL", "DISTINCT", "INSERT", "INTO", "VALUES", "UPDATE", "SET",
   "DELETE", "CREATE", "ALTER", "DROP", "TABLE", "VIEW", "INDEX",
   "WITH", "CASE", "WHEN", "THEN", "ELSE", "END", "BETWEEN", "LIKE",
   "EXISTS", "ASC", "DESC", "TOP", "OVER", "PARTITION", "WINDOW",
   "ROWS", "RANGE", "PRECEDING", "FOLLOWING", "CURRENT", "ROW",
   "RECURSIVE", "LATERAL", "QUALIFY", "ILIKE", "PIVOT", "UNPIVOT",
   "EXCLUDE", "REPLACE", "RENAME"]

/-- The built-in function list of the `fn` regex, in alternation order. -/
def SQL_FUNCTIONS : List String :=
  ["COUNT", "SUM", "AVG", "MIN", "MAX", "COALESCE", "NVL", "IFF",
   "IFNULL", "NULLIF", "CAST", "TRY_CAST", "TO_DATE", "TO_TIMESTAMP",
   "TO_NUMBER", "TO_VARCHAR", "DATEADD", "DATEDIFF", "DATE_TRUNC",
   "ROUND", "FLOOR", "CEIL", "ABS", "UPPER", "LOWER", "TRIM", "LENGTH",
   "SUBSTR", "SUBSTRING", "CONCAT", "SPLIT_PART", "REGEXP_SUBSTR",
   "REGEXP_REPLACE", "REGEXP_LIKE", "LISTAGG", "ARRAY_AGG",
   "ROW_NUMBER", "RANK", "DENSE_RANK", "LAG", "LEAD", "FIRST_VALUE",
   "LAST_VALUE", "NTH_VALUE", "PARSE_JSON", "OBJECT_CONSTRUCT",
   "FLATTEN", "GET", "GET_PATH"]

/-- `\b(KW1|KW2|...)\b` at the current position: the unique alternative that
matches case-insensitively and is followed by a word boundary (alternatives
tried in order, as the regex engine does). -/
def tryAlt : List String → List Char → Option (List Char × List Char)
  | [], _ => none
  | k :: ks, cs =>
    match matchCI k.data cs with
    | some (m, rest) => if headNonWord rest then some (m, rest) else tryAlt ks cs
    | none => tryAlt ks cs

/-- Pass 2: keyword coloring.  `prevWord` records whether the previously
scanned character was a word character (no `\b` at such positions). -/
def keywordGo : Nat → Bool → List Char → List Char
  | 0, _, cs => cs
  | _ + 1, _, [] => []
  | fuel + 1, prevWord, c :: rest =>
    if prevWord then c :: keywordGo fuel (isWordChar c) rest
    else
      match tryAlt SQL_KEYWORDS (c :: rest) with
      | some (m, rest') => kwOpen.data ++ m ++ spanClose.data ++ keywordGo fuel true rest'
      | none => c :: keywordGo fuel (isWordChar c) rest

/-- `\b(NAME1|NAME2|...)\s*(?=\()` at the current position: matched name,
the consumed whitespace, and the remainder starting at `(`. -/
def tryFn : List String → List Char → Option (List Char × List Char × List Char)
  | [], _ => none
  | k :: ks, cs =>
    match matchCI k.data cs with
    | some (m, rest) =>
      let ws := rest.takeWhile isPySpace
      (match rest.dropWhile isPySpace with
       | '(' :: rest2 => some (m, ws, '(' :: rest2)
       | _ => tryFn ks cs)
    | none => tryFn ks cs

/-- Pass 3: built-in function coloring.  The replacement keeps only the name
(`\1`), dropping the whitespace matched by `\s*`. -/
def fnGo : Nat → Bool → List Char → List Char
  | 0, _, cs => cs
  | _ + 1, _, [] => []
  | fuel + 1, prevWord, c :: rest =>
    if prevWord then c :: fnGo fuel (isWordChar c) rest
    else
      match tryFn SQL_FUNCTIONS (c :: rest) with
      | some (m, ws, rest') =>
        fnOpen.data ++ m ++ spanClose.data ++ fnGo fuel (ws.isEmpty) rest'
      | none => c :: fnGo fuel (isWordChar c) rest

def isUpperAZ (c : Char) : Bool :=
  ('A' ≤ c && c ≤ 'Z') || c = '_'

/-- Pass 4: `\b([A-Z_]\w*)\s*(?=\()` — generic `IDENTIFIER(` coloring
(case-sensitive: upper-case or underscore start). -/
def genericGo : Nat → Bool → List Char → List Char
  | 0, _, cs => cs
  | _ + 1, _, [] => []
  | fuel + 1, prevWord, c :: rest =>
    if prevWord then c :: genericGo fuel (isWordChar c) rest
    else if isUpperAZ c then
      let name := (c :: rest).takeWhile isWordChar
      let rest1 := (c :: rest).dropWhile isWordChar
      let ws := rest1.takeWhile isPySpace
      match rest1.dropWhile isPySpace with
      | '(' :: rest2 =>
        fnOpen.data ++ name ++ spanClose.data ++ genericGo fuel (ws.isEmpty) ('(' :: rest2)
      | _ => c :: genericGo fuel (isWordChar c) rest
    else c :: genericGo fuel (isWordChar c) rest

/-- Pass 5: `\b(\d+(?:\.\d+)?)\b` — numeric literals, with the regex engine's
backtracking: if the fractional candidate fails its trailing `\b`, the
integer part alone still matches (the following `.` is a non-word char). -/
def numberGo : Nat → Bool → List Char → List Char
  | 0, _, cs => cs
  | _ + 1, _, [] => []
  | fuel + 1, prevWord, c :: rest =>
    if prevWord then c :: numberGo fuel (isWordChar c) rest
    else if c.isDigit then
      let d1 := (c :: rest).takeWhile Char.isDigit
      let rest1 := (c :: rest).dropWhile Char.isDigit
      match rest1 with
      | '.' :: r2 =>
        if (r2.headD ' ').isDigit then
          let d2 := r2.takeWhile Char.isDigit
          let rest2 := r2.dropWhile Char.isDigit
          if headNonWord rest2 then
            numOpen.data ++ d1 ++ '.' :: d2 ++ spanClose.data ++ numberGo fuel true rest2
          else
            numOpen.data ++ d1 ++ spanClose.data ++ numberGo fuel true rest1
        else
          numOpen.data ++ d1 ++ spanClose.data ++ numberGo fuel true rest1
      | _ =>
        if headNonWord rest1 then
          numOpen.data ++ d1 ++ spanClose.data ++ numberGo fuel true rest1
        else
          d1 ++ numberGo fuel true rest1
    else c :: numberGo fuel (isWordChar c) rest

/-- Restore pass: `escaped = escaped.replace(f"\x00HL{i}\x00", frag)` for each
slot in order. -/
def restoreGo (i : Nat) : List String → String → String
  | [], s => s
  | frag :: rest, s => restoreGo (i + 1) rest (pyReplace s (placeholderStr i) frag)

/-- `_highlight_sql`: escape, protect comments and strings with placeholders,
color keywords/functions/numbers, then restore the protected fragments. -/
def _highlight_sql (sql_text : String) : String :=
  let escaped := html_escape sql_text
  let (cs1, slots1) := blockGo (escaped.data.length + 1) escaped.data []
  let (cs2, slots2) := lineGo (cs1.length + 1) cs1 slots1
  let (cs3, slots3) := stringGo (cs2.length + 1) cs2 slots2
  let cs4 := keywordGo (cs3.length + 1) false cs3
  let cs5 := fnGo (cs4.length + 1) false cs4
  let cs6 := genericGo (cs5.length + 1) false cs5
  let cs7 := numberGo (cs6.length + 1) false cs6
  restoreGo 0 slots3 (String.mk cs7)

/-! ## Streaming reducer (`call_cortex_agent_streaming`, lines 276-538)

The generator is modelled as a pure function from its configuration and the
transport outcome to the list of yielded `(mode, text)` tuples, paired with
`Option String`: `some e` records an exception propagating to the caller.

One server-sent event carries its name (`event.event or ""`), its raw data
string (inspected by the source only for emptiness and the `[DONE]` marker)
and the `json.loads` result (`none` models a `json.JSONDecodeError`). -/

structure SSEvent where
  event : String
  data : String
  parsed : Option JVal

structure StreamState where
  thinking_text : String
  answer_text : String
  last_status : String
  deriving Repr, DecidableEq

def initState : StreamState := ⟨"", "", ""⟩

/-- `desc = find_description_in_data(parsed)`: emit it as a deduplicated
status tuple when truthy. -/
def descPart (st : StreamState) (parsed : JVal) :
    StreamState × List (String × String) :=
  match find_description_in_data parsed 0 with
  | some desc =>
    if desc ≠ "" ∧ desc ≠ st.last_status then
      ({ st with last_status := desc }, [("status", desc)])
    else (st, [])
  | none => (st, [])

/-- `sql = find_sql_in_data(parsed); if sql: yield ("sql", sql)`. -/
def sqlPart (parsed : JVal) : List (String × String) :=
  match find_sql_in_data parsed 0 with
  | some s => if s ≠ "" then [("sql", s)] else []
  | none => []

/-- The `desc`/`sql` probing shared by the status, tool-use and tool-result
branches (e.g. lines 457-464). -/
def descSqlOutputs (st : StreamState) (parsed : JVal) :
    StreamState × List (String × String) :=
  ((descPart st parsed).1, (descPart st parsed).2 ++ sqlPart parsed)

/-- The `response.status` / `response.tool_result.status` branch body
(lines 399-412 and 422-434, which are identical in effect): emit the
`message` field if new, then probe for a description and for SQL.
Non-string `message` values (which the source would yield raw) are not
modelled; every payload in this development carries string messages. -/
def messagePart (st : StreamState) (fs : List (String × JVal)) :
    StreamState × List (String × String) :=
  let message :=
    match lookupField fs "message" with
    | some (.jstr m) => m
    | _ => ""
  if message ≠ "" ∧ message ≠ st.last_status then
    ({ st with last_status := message }, [("status", message)])
  else (st, [])

def statusBranch (st : StreamState) (fs : List (String × JVal)) :
    StreamState × List (String × String) :=
  ((descSqlOutputs (messagePart st fs).1 (.jobj fs)).1,
   (messagePart st fs).2 ++ (descSqlOutputs (messagePart st fs).1 (.jobj fs)).2)

/-- `item.get("type") == "text"`. -/
def isTypeText (ifs : List (String × JVal)) : Bool :=
  match lookupField ifs "type" with
  | some (.jstr s) => s = "text"
  | _ => false

/-- The list-shaped `message.delta` content loop (lines 479-484).  A truthy
non-string `text` raises `TypeError` at `answer_text += text`, aborting the
event but keeping the tuples already yielded. -/
def messageDeltaItems (st : StreamState) :
    List JVal → StreamState × List (String × String)
  | [] => (st, [])
  | item :: rest =>
    match item with
    | .jobj ifs =>
      if isTypeText ifs then
        match (lookupField ifs "text").getD (.jstr "") with
        | .jstr t =>
          if t ≠ "" then
            let na := st.answer_text ++ t
            let (st', outs) := messageDeltaItems { st with answer_text := na } rest
            (st', ("answer", na) :: outs)
          else messageDeltaItems st rest
        | v => if jtruthy v then (st, []) else messageDeltaItems st rest
      else messageDeltaItems st rest
    | _ => messageDeltaItems st rest

/-- The dict-shaped content handling shared by `message.delta` (lines
485-490) and the `delta` fallback (lines 509-514). -/
def contentDictText (st : StreamState) (cfs : List (String × JVal)) :
    StreamState × List (String × String) :=
  if isTypeText cfs then
    match (lookupField cfs "text").getD (.jstr "") with
    | .jstr t =>
      if t ≠ "" then
        let na := st.answer_text ++ t
        ({ st with answer_text := na }, [("answer", na)])
      else (st, [])
    | v => if jtruthy v then (st, []) else (st, [])
  else (st, [])

/-- The final `response` content loop (lines 496-503): each text part
*replaces* `answer_text` and is yielded.  Non-string `text` values (which
the source would assign and yield raw) are not modelled. -/
def responseItems (st : StreamState) :
    List JVal → StreamState × List (String × String)
  | [] => (st, [])
  | item :: rest =>
    match item with
    | .jobj ifs =>
      if isTypeText ifs then
        match (lookupField ifs "text").getD (.jstr "") with
        | .jstr t =>
          if t ≠ "" then
            let (st', outs) := responseItems { st with answer_text := t } rest
            (st', ("answer", t) :: outs)
          else responseItems st rest
        | _ => responseItems st rest
      else responseItems st rest
    | _ => responseItems st rest

/-- `"delta" in parsed`: key membership for mappings, element membership for
sequences, substring test for strings (non-mappings then raise `TypeError`
at `parsed["delta"]` and the event is skipped). -/
def containsDeltaKey : JVal → Bool
  | .jobj fs => (lookupField fs "delta").isSome
  | .jarr items => items.any fun v =>
      match v with
      | .jstr s => s = "delta"
      | _ => false
  | .jstr s => strContains s "delta"
  | _ => false

/-- The `elif "delta" in parsed` fallback branch (lines 506-520). -/
def deltaFallback (st : StreamState) (parsed : JVal) :
    StreamState × List (String × String) :=
  match parsed with
  | .jobj fs =>
    match lookupField fs "delta" with
    | some (.jobj dfs) =>
      (match (lookupField dfs "content").getD (.jobj []) with
       | .jobj cfs => contentDictText st cfs
       | .jstr s =>
         -- `isinstance(content, str)`: appended and yielded without a truthiness check
         let na := st.answer_text ++ s
         ({ st with answer_text := na }, [("answer", na)])
       | _ => (st, []))
    | some (.jstr s) =>
      let na := st.answer_text ++ s
      ({ st with answer_text := na }, [("answer", na)])
    | some _ => (st, [])
    | none => (st, [])
  | _ => (st, [])  -- `parsed["delta"]` raises on sequences and strings; event skipped

/-- The `response.status` / `response.tool_result.status` arm: skip
non-mapping payloads (`parsed.get` raises `AttributeError`, caught by the
per-event handler). -/
def statusArm (st : StreamState) (parsed : JVal) :
    StreamState × List (String × String) :=
  match parsed with
  | .jobj fs => statusBranch st fs
  | _ => (st, [])

/-- The `response.thinking.delta` arm (lines 415-419): accumulate reasoning
and yield the cumulative text.  A truthy non-string `text` raises at `+=`
and the event is skipped. -/
def thinkingArm (st : StreamState) (parsed : JVal) :
    StreamState × List (String × String) :=
  match parsed with
  | .jobj fs =>
    (match (lookupField fs "text").getD (.jstr "") with
     | .jstr t =>
       if t ≠ "" then
         let nt := st.thinking_text ++ t
         ({ st with thinking_text := nt }, [("thinking", nt)])
       else (st, [])
     | _ => (st, []))
  | _ => (st, [])

/-- The `response.text.delta` arm (lines 467-471): append the chunk and
yield the answer-so-far. -/
def textDeltaArm (st : StreamState) (parsed : JVal) :
    StreamState × List (String × String) :=
  match parsed with
  | .jobj fs =>
    (match (lookupField fs "text").getD (.jstr "") with
     | .jstr t =>
       if t ≠ "" then
         let na := st.answer_text ++ t
         ({ st with answer_text := na }, [("answer", na)])
       else (st, [])
     | _ => (st, []))
  | _ => (st, [])

/-- The `message.delta` arm (lines 474-490). -/
def messageDeltaArm (st : StreamState) (parsed : JVal) :
    StreamState × List (String × String) :=
  match parsed with
  | .jobj fs =>
    (match (lookupField fs "delta").getD (.jobj []) with
     | .jobj dfs =>
       (match (lookupField dfs "content").getD (.jarr []) with
        | .jarr items => messageDeltaItems st items
        | .jobj cfs => contentDictText st cfs
        | _ => (st, []))
     | _ => (st, []))
  | _ => (st, [])

/-- The final `response` arm (lines 493-503): only consulted when no answer
text has accumulated yet. -/
def responseArm (st : StreamState) (parsed : JVal) :
    StreamState × List (String × String) :=
  match parsed with
  | .jobj fs =>
    if st.answer_text = "" then
      match (lookupField fs "content").getD (.jarr []) with
      | .jarr items => responseItems st items
      | _ => (st, [])
    else (st, [])
  | _ => (st, [])

/-- Dispatch on the event's declared kind (the `elif` chain of lines
399-526). -/
def processParsed (st : StreamState) (event_type : String) (parsed : JVal) :
    StreamState × List (String × String) :=
  if event_type = "response.status" then
    statusArm st parsed
  else if event_type = "response.thinking.delta" then
    thinkingArm st parsed
  else if event_type = "response.tool_result.status" then
    statusArm st parsed
  else if event_type = "response.tool_result.analyst.delta" then
    descSqlOutputs st parsed
  else if event_type = "response.tool_use" ∨ event_type = "response.tool_call"
      ∨ event_type = "tool_use" then
    descSqlOutputs st parsed
  else if event_type = "response.tool_result" then
    descSqlOutputs st parsed
  else if event_type = "response.text.delta" then
    textDeltaArm st parsed
  else if event_type = "message.delta" then
    messageDeltaArm st parsed
  else if event_type = "response" then
    responseArm st parsed
  else if containsDeltaKey parsed then
    deltaFallback st parsed
  else
    -- catch-all: check any unhandled event for SQL
    (st, sqlPart parsed)

/-- Per-event processing: skip empty bodies and the end marker, skip
malformed JSON, else dispatch. -/
def processSSE (st : StreamState) (ev : SSEvent) :
    StreamState × List (String × String) :=
  if ev.data = "" ∨ pyStrip ev.data = "" ∨ ev.data = "[DONE]" then (st, [])
  else
    match ev.parsed with
    | none => (st, [])
    | some parsed => processParsed st ev.event parsed

/-- The `for event in client.events()` loop, accumulating yielded tuples. -/
def runEvents (st : StreamState) :
    List SSEvent → StreamState × List (String × String)
  | [] => (st, [])
  | ev :: rest =>
    let (st1, out1) := processSSE st ev
    let (st2, out2) := runEvents st1 rest
    (st2, out1 ++ out2)

/-- Outcome of `open("/snowflake/session/token").read()`: the source catches
only `FileNotFoundError`; any other `OSError` (e.g. `PermissionError` for an
unreadable file) propagates. -/
inductive TokenRead where
  | ok (token : String)
  | fileNotFound
  | otherError (exc : String)

/-- Outcome of the streaming `requests.post` and SSE iteration.  `timeout`
and `error` carry the events already delivered before the transport failed
mid-stream (empty if the POST itself failed). -/
inductive HttpStreamResult where
  | response (status_code : Nat) (events : List SSEvent)
  | timeout (events_before : List SSEvent)
  | error (events_before : List SSEvent) (exc : String)

/-- `f"Regarding broker '{broker_context}': {question}"` when a context is
given. -/
def full_question (question broker_context : String) : String :=
  if broker_context ≠ "" then
    "Regarding broker \x27" ++ broker_context ++ "\x27: " ++ question
  else question

/-- `call_cortex_agent_streaming`: the yielded tuples and, in the second
component, an exception escaping the generator (`none` when it runs to
completion).  `host = none` models an unset `SNOWFLAKE_HOST`; a falsy empty
string behaves the same. -/
def call_cortex_agent_streaming (question broker_context : String)
    (host : Option String) (tok : TokenRead) (http : HttpStreamResult) :
    List (String × String) × Option String :=
  let _ := full_question question broker_context  -- sent in the request body
  match host with
  | none => ([("answer", "Agent unavailable — SNOWFLAKE_HOST not set.")], none)
  | some h =>
    if h = "" then ([("answer", "Agent unavailable — SNOWFLAKE_HOST not set.")], none)
    else
      match tok with
      | .fileNotFound => ([("answer", "Agent unavailable — session token not found.")], none)
      | .otherError exc => ([], some exc)
      | .ok _ =>
        match http with
        | .timeout pre =>
          ((runEvents initState pre).2 ++ [("answer", "Agent request timed out. Please try again.")], none)
        | .error pre exc =>
          ((runEvents initState pre).2 ++ [("answer", "Agent error: " ++ exc)], none)
        | .response code events =>
          if code ≠ 200 then ([("answer", "Agent returned HTTP " ++ toString code)], none)
          else
            let (st, outs) := runEvents initState events
            (outs ++ (if st.answer_text = "" then [("answer", "No response from agent.")] else []),
             none)

/-! ## Chat consumer loop (`tab_broker`, lines 1576-1637)

The UI loop reconstructs the step timeline from the yielded tuples.  Its
state is the `steps` list, the count of reasoning characters already
assigned, and the answer text; rendering calls are display-only. -/

structure Step where
  category : String
  text : String
  reasoning : String
  deriving Repr, DecidableEq

structure ConsumerState where
  steps : List Step
  prev_reasoning_len : Nat
  full_response : String
  deriving Repr, DecidableEq

/-- `steps[-1]["reasoning"] += new_chunk`. -/
def appendReasoningToLast : List Step → String → List Step
  | [], _ => []
  | [s], chunk => [{ s with reasoning := s.reasoning ++ chunk }]
  | s :: rest, chunk => s :: appendReasoningToLast rest chunk

/-- One iteration of the consumer loop (lines 1594-1616). -/
def consumeTuple (cs : ConsumerState) (t : String × String) : ConsumerState :=
  let (mode, text) := t
  if mode = "status" then
    let category := categorize_status text
    let steps :=
      match cs.steps.getLast? with
      | none => cs.steps ++ [⟨category, text, ""⟩]
      | some last => if last.text ≠ text then cs.steps ++ [⟨category, text, ""⟩] else cs.steps
    { cs with steps := steps }
  else if mode = "sql" then
    { cs with steps := cs.steps ++ [⟨"sql", text, ""⟩] }
  else if mode = "thinking" then
    let new_chunk := String.mk (text.data.drop cs.prev_reasoning_len)  -- text[prev_reasoning_len:]
    let cs' := { cs with prev_reasoning_len := text.data.length }
    if !cs'.steps.isEmpty && new_chunk ≠ "" then
      { cs' with steps := appendReasoningToLast cs'.steps new_chunk }
    else cs'
  else
    { cs with full_response := text }

/-- `_re.split(r'\n{2,}', blob)`: split on each maximal run of two or more
newlines.  Fueled so it reduces in the kernel; each step consumes at least
one character, so `length + 1` fuel always suffices. -/
def splitNLGo : Nat → List Char → List Char → List (List Char)
  | 0, cs, acc => [acc.reverse ++ cs]
  | _ + 1, [], acc => [acc.reverse]
  | fuel + 1, '\n' :: '\n' :: rest, acc =>
    acc.reverse :: splitNLGo fuel (rest.dropWhile (· = '\n')) []
  | fuel + 1, c :: rest, acc => splitNLGo fuel rest (c :: acc)

def pySplitBlankLines (s : String) : List String :=
  (splitNLGo (s.data.length + 1) s.data []).map String.mk

/-- `"\n\n".join(chunks[start:end])` for the `i`-th of `n` non-SQL steps. -/
def sliceChunks (chunks : List String) (per n i : Nat) : String :=
  let start := i * per
  let stop := if i < n - 1 then start + per else chunks.length
  String.intercalate "\n\n" ((chunks.drop start).take (stop - start))

/-- In-place chunk assignment over the non-SQL steps, in order. -/
def assignGo (chunks : List String) (per n : Nat) : List Step → Nat → List Step
  | [], _ => []
  | s :: rest, i =>
    if s.category ≠ "sql" then
      { s with reasoning := sliceChunks chunks per n i } :: assignGo chunks per n rest (i + 1)
    else s :: assignGo chunks per n rest i

/-- Post-stream reasoning redistribution (lines 1618-1633): when exactly one
non-SQL step accumulated all reasoning and others have none, split the blob
on blank lines and spread the chunks across the non-SQL steps. -/
def redistribute (steps : List Step) : List Step :=
  let non_sql := steps.filter fun s => s.category != "sql"
  let withR := non_sql.filter fun s => s.reasoning != ""
  let without := non_sql.filter fun s => s.reasoning == ""
  match withR with
  | [blobStep] =>
    if !without.isEmpty then
      let chunks := ((pySplitBlankLines blobStep.reasoning).map pyStrip).filter (· ≠ "")
      if non_sql.length ≤ chunks.length then
        assignGo chunks (max 1 (chunks.length / non_sql.length)) non_sql.length steps 0
      else steps
    else steps
  | _ => steps

/-- The whole consumer: fold the tuples, then redistribute reasoning. -/
def runConsumer (tuples : List (String × String)) : ConsumerState :=
  let cs := tuples.foldl consumeTuple ⟨[], 0, ""⟩
  { cs with steps := redistribute cs.steps }

/-! ## Non-streaming fallback (`call_cortex_agent`, lines 669-734)

The whole request/parse body sits inside one `try`, so every exception
raised after the token read is converted to an `"Agent error: ..."` string.
In the model, `Option` return values of the extraction helpers mark points
where the source would raise (caught by that handler). -/

/-- Outcome of the non-streaming `requests.post`: a status code with the
decoded JSON body (`none` models a `resp.json()` decode failure), a timeout,
or another transport exception. -/
inductive HttpJsonResult where
  | response (status_code : Nat) (body : Option JVal)
  | timeout
  | error (exc : String)

/-- `data["text"]` is returned as-is by the source (even when not a string);
only string payloads are modelled. -/
def jvalText : JVal → String
  | .jstr s => s
  | _ => ""

/-- Collect `text_parts` from the assistant messages (lines 712-721).
`none` marks a raised exception: iterating hits a non-mapping message and
calls `.get` on it. -/
def assistant_parts : List JVal → Option (List JVal)
  | [] => some []
  | msg :: rest =>
    match msg with
    | .jobj mfs =>
      let isAssistant : Bool :=
        match lookupField mfs "role" with
        | some (.jstr r) => r = "assistant"
        | _ => false
      let here : List JVal :=
        if isAssistant then
          match (lookupField mfs "content").getD (.jarr []) with
          | .jstr s => [.jstr s]
          | .jarr items =>
            items.filterMap fun item =>
              match item with
              | .jobj ifs =>
                if isTypeText ifs then some ((lookupField ifs "text").getD (.jstr ""))
                else none
              | _ => none
          | _ => []
        else []
      (assistant_parts rest).map (here ++ ·)
    | _ => none

/-- `"\n".join(filter(None, text_parts))` — `none` marks the `TypeError`
raised when a truthy non-string part reaches `join`. -/
def join_parts (parts : List JVal) : Option String :=
  let kept := parts.filter jtruthy
  if kept.all fun v => match v with | .jstr _ => true | _ => false then
    some (String.intercalate "\n"
      (kept.filterMap fun v => match v with | .jstr s => some s | _ => none))
  else none

/-- Response-body text extraction (lines 704-730); `none` marks an exception
reaching the outer handler. -/
def extract_answer (data : JVal) : Option String :=
  match data with
  | .jobj fs =>
    let messages0 := (lookupField fs "messages").getD (.jarr [])
    let messages :=
      if !jtruthy messages0 then
        match lookupField fs "message" with
        | some m => JVal.jarr [m]
        | none => messages0
      else messages0
    let iterated : Option (List JVal) :=
      match messages with
      | .jarr msgs => assistant_parts msgs
      | .jobj [] => some []   -- iterating an empty mapping yields no keys
      | .jstr "" => some []   -- iterating an empty string yields no characters
      | _ => none             -- iterating any other shape raises (or its items do)
    match iterated with
    | none => none
    | some parts =>
      if !parts.isEmpty then join_parts parts
      else
        match lookupField fs "text" with
        | some v => some (jvalText v)
        | none => some "No response from agent."
  | _ => none  -- `data.get` on a non-mapping raises

/-- `call_cortex_agent`: returns the reply string, or `.error` when an
exception propagates to the caller (only possible while reading the token
file).  The text of exceptions converted to `"Agent error: ..."` strings by
the source is dynamic; the model abstracts it. -/
def call_cortex_agent (question broker_context : String)
    (host : Option String) (tok : TokenRead) (http : HttpJsonResult) :
    Except String String :=
  let _ := full_question question broker_context  -- sent in the request body
  match host with
  | none => .ok "Agent unavailable — SNOWFLAKE_HOST not set."
  | some h =>
    if h = "" then .ok "Agent unavailable — SNOWFLAKE_HOST not set."
    else
      match tok with
      | .fileNotFound => .ok "Agent unavailable — session token not found."
      | .otherError exc => .error exc
      | .ok _ =>
        match http with
        | .timeout => .ok "Agent request timed out. Please try again."
        | .error exc => .ok ("Agent error: " ++ exc)
        | .response code body =>
          if code ≠ 200 then .ok ("Agent returned HTTP " ++ toString code)
          else
            match body with
            | none => .ok "Agent error: response body is not JSON"
            | some data =>
              match extract_answer data with
              | some text => .ok text
              | none => .ok "Agent error: unexpected response shape"

/-! ## Concrete instances used by the theorems -/

/-- The end-to-end scenario stream: a status event, a tool result carrying
SQL, a reasoning delta, and an answer text delta. -/
def c1Events : List SSEvent :=
  [⟨"response.status", "\x7b\x22message\x22: \x22Planning approach\x22\x7d",
    some (.jobj [("message", .jstr "Planning approach")])⟩,
   ⟨"response.tool_result",
    "\x7b\x22tool_result\x22: \x7b\x22sql\x22: \x22SELECT COUNT(*) FROM LOADS\x22\x7d\x7d",
    some (.jobj [("tool_result", .jobj [("sql", .jstr "SELECT COUNT(*) FROM LOADS")])])⟩,
   ⟨"response.thinking.delta", "\x7b\x22text\x22: \x22Because...\x22\x7d",
    some (.jobj [("text", .jstr "Because...")])⟩,
   ⟨"response.text.delta", "\x7b\x22text\x22: \x22The answer is 42.\x22\x7d",
    some (.jobj [("text", .jstr "The answer is 42.")])⟩]

/-- The tuples the end-to-end scenario delivers to the caller. -/
def c1Tuples : List (String × String) :=
  [("status", "Planning approach"), ("sql", "SELECT COUNT(*) FROM LOADS"),
   ("thinking", "Because..."), ("answer", "The answer is 42.")]

/-- An answer text-delta event carrying chunk `t`.  The raw body is only
ever inspected for emptiness and the `[DONE]` marker, so a fixed non-empty
placeholder stands for the serialized JSON. -/
def mkTextDelta (t : String) : SSEvent :=
  ⟨"response.text.delta", "\x7b\x22text\x22: \x22...\x22\x7d",
   some (.jobj [("text", .jstr t)])⟩

/-- The answer tuples produced by appending each chunk to `acc`. -/
def answersFrom (acc : String) : List String → List (String × String)
  | [] => []
  | c :: rest => ("answer", acc ++ c) :: answersFrom (acc ++ c) rest

/-- Three status events with a duplicated message. -/
def c5Events : List SSEvent :=
  [⟨"response.status", "\x7b\x22message\x22: \x22Planning...\x22\x7d",
    some (.jobj [("message", .jstr "Planning...")])⟩,
   ⟨"response.status", "\x7b\x22message\x22: \x22Planning...\x22\x7d",
    some (.jobj [("message", .jstr "Planning...")])⟩,
   ⟨"response.status", "\x7b\x22message\x22: \x22Executing tool\x22\x7d",
    some (.jobj [("message", .jstr "Executing tool")])⟩]

/-- A payload nesting `{"sql": "SELECT 1"}` three levels deep
(mapping → mapping → sequence → mapping). -/
def c6SqlPayload : JVal :=
  .jobj [("tool_result", .jobj [("content", .jarr [.jobj [("sql", .jstr "SELECT 1")]])])]

/-- A tool-result event carrying `c6SqlPayload`. -/
def c6SqlEvent : SSEvent :=
  ⟨"response.tool_result",
   "\x7b\x22tool_result\x22: \x7b\x22content\x22: [\x7b\x22sql\x22: \x22SELECT 1\x22\x7d]\x7d\x7d",
   some c6SqlPayload⟩

/-- A tool-result event whose `query` field is natural language, not SQL. -/
def c6QueryEvent : SSEvent :=
  ⟨"response.tool_result", "\x7b\x22query\x22: \x22look up the broker\x22\x7d",
   some (.jobj [("query", .jstr "look up the broker")])⟩

/-- A payload whose only SQL string sits seven levels deep — beyond the
depth cap of the nested searches. -/
def c9Deep7 : JVal :=
  .jobj [("a", .jobj [("a", .jobj [("a", .jobj [("a",
    .jobj [("a", .jobj [("a", .jobj [("a", .jstr "SELECT 1")])])])])])])]

/-- The same SQL string five levels deep — within the depth cap. -/
def c9Deep5 : JVal :=
  .jobj [("a", .jobj [("a", .jobj [("a", .jobj [("a",
    .jobj [("a", .jstr "SELECT 1")])])])])]

/-- A non-SQL `query` description seven levels deep. -/
def c9DeepDesc7 : JVal :=
  .jobj [("a", .jobj [("a", .jobj [("a", .jobj [("a",
    .jobj [("a", .jobj [("a", .jobj [("query", .jstr "look here")])])])])])])]

/-- The highlighter example from the specification. -/
def c4Input : String := "SELECT \x27SELECT\x27 FROM t -- SELECT"

/-- Expected highlighter output for `c4Input`. -/
def c4Expected : String :=
  "<span style=\x22color:#c678dd;font-weight:bold\x22>SELECT</span> " ++
  "<span style=\x22color:#98c379\x22>&#x27;SELECT&#x27;</span> " ++
  "<span style=\x22color:#c678dd;font-weight:bold\x22>FROM</span> t " ++
  "<span style=\x22color:#5c6370;font-style:italic\x22>-- SELECT</span>"

/-- A single-quoted literal containing `&`: the string-protection regex
`&#x27;[^&]*?&#x27;` cannot match it after HTML escaping. -/
def c4AmpInput : String := "SELECT \x27& DELETE\x27 FROM t"

/-- What the highlighter actually produces for `c4AmpInput`: the `DELETE`
inside the quoted literal is keyword-colored. -/
def c4AmpOutput : String :=
  "<span style=\x22color:#c678dd;font-weight:bold\x22>SELECT</span> " ++
  "&#x27;&amp; <span style=\x22color:#c678dd;font-weight:bold\x22>DELETE</span>&#x27; " ++
  "<span style=\x22color:#c678dd;font-weight:bold\x22>FROM</span> t"

/-! ## Helper lemmas -/

/-- A text-delta event with a non-empty chunk appends the chunk and yields
the answer-so-far. -/
theorem processSSE_mkTextDelta (st : StreamState) (c : String) (hc : c ≠ "") :
    processSSE st (mkTextDelta c) =
      ({ st with answer_text := st.answer_text ++ c }, [("answer", st.answer_text ++ c)]) := by
  have h1 : pyStrip "\x7b\x22text\x22: \x22...\x22\x7d" ≠ "" := by decide
  have h2 : ("\x7b\x22text\x22: \x22...\x22\x7d" : String) ≠ "" := by decide
  have h3 : ("\x7b\x22text\x22: \x22...\x22\x7d" : String) ≠ "[DONE]" := by decide
  simp [processSSE, mkTextDelta, processParsed, textDeltaArm, lookupField,
        hc, h1, h2, h3]

/-- Feeding only text-delta events with non-empty chunks yields exactly the
running concatenations. -/
theorem runEvents_textDeltas (st : StreamState) (chunks : List String)
    (h : ∀ c ∈ chunks, c ≠ "") :
    (runEvents st (chunks.map mkTextDelta)).2 = answersFrom st.answer_text chunks := by
  induction chunks generalizing st with
  | nil => simp [runEvents, answersFrom]
  | cons c rest ih =>
    have hc : c ≠ "" := h c (List.mem_cons_self c rest)
    simp only [List.map_cons, runEvents, processSSE_mkTextDelta st c hc, answersFrom]
    rw [ih _ fun x hx => h x (List.mem_cons_of_mem c hx)]
    rfl

/-! ## Claim theorems -/

/-- C1 (counterexample): for the end-to-end stream of the claim, the caller
receives exactly the four claimed tuples, but — contrary to the claim — the
reasoning text `"Because..."` is NOT attributed to the Planning step: no
planning step carries it (the consumer appends reasoning to `steps[-1]`,
which at that moment is the SqlQuery step). -/
theorem C1_counterexample :
    (call_cortex_agent_streaming "How many loads?" "Acme" (some "host.example")
        (.ok "tok") (.response 200 c1Events)).1 = c1Tuples ∧
    ¬ ∃ st ∈ (runConsumer c1Tuples).steps,
        st.category = "planning" ∧ st.reasoning = "Because..." := by
  constructor
  · decide
  · decide

/-- C1 (amended): the end-to-end stream yields exactly the tuples
`("status","Planning approach")`, `("sql","SELECT COUNT(*) FROM LOADS")`,
`("thinking","Because...")`, `("answer","The answer is 42.")` in that order,
and the final reconstructed state has one Planning step, one SqlQuery step
and answer `"The answer is 42."`; the reasoning text `"Because..."` is
attributed to the most recently appended step — the SqlQuery step — while
the Planning step's reasoning is empty. -/
theorem C1_end_to_end :
    call_cortex_agent_streaming "How many loads?" "Acme" (some "host.example")
        (.ok "tok") (.response 200 c1Events) = (c1Tuples, none) ∧
    runConsumer c1Tuples =
      ⟨[⟨"planning", "Planning approach", ""⟩,
        ⟨"sql", "SELECT COUNT(*) FROM LOADS", "Because..."⟩],
       10, "The answer is 42."⟩ := by
  constructor
  · decide
  · decide

/-- C2 (counterexample): cumulative answer-delta events carrying the growing
prefixes `"H","He","Hel","Hello"` are NOT emitted as
`"H","He","Hel","Hello"`: the reducer appends every delta, so it emits
`"H","HHe","HHeHel","HHeHelHello"`. -/
theorem C2_counterexample :
    (call_cortex_agent_streaming "q" "" (some "host.example") (.ok "tok")
        (.response 200 (["H", "He", "Hel", "Hello"].map mkTextDelta))).1 =
      [("answer", "H"), ("answer", "HHe"), ("answer", "HHeHel"),
       ("answer", "HHeHelHello")] ∧
    (call_cortex_agent_streaming "q" "" (some "host.example") (.ok "tok")
        (.response 200 (["H", "He", "Hel", "Hello"].map mkTextDelta))).1 ≠
      [("answer", "H"), ("answer", "He"), ("answer", "Hel"), ("answer", "Hello")] := by
  constructor
  · decide
  · decide

/-- C2 (amended): every answer text delta is appended to the answer so far
and the full concatenation is emitted on each delta: for any non-empty
chunks the emitted answer tuples are exactly the running concatenations
(so the incremental chunks `"H","e","l","lo"` produce
`"H","He","Hel","Hello"`); the reducer has no cumulative/replace
normalization. -/
theorem C2_answer_deltas_append :
    (∀ (st : StreamState) (chunks : List String), (∀ c ∈ chunks, c ≠ "") →
      (runEvents st (chunks.map mkTextDelta)).2 = answersFrom st.answer_text chunks) ∧
    (call_cortex_agent_streaming "q" "" (some "host.example") (.ok "tok")
        (.response 200 (["H", "e", "l", "lo"].map mkTextDelta))).1 =
      [("answer", "H"), ("answer", "He"), ("answer", "Hel"), ("answer", "Hello")] := by
  exact ⟨runEvents_textDeltas, by decide⟩

/-- C2 witness: the general append lemma applied to the concrete chunk list
`["H", "e"]`. -/
theorem C2_answer_deltas_append_witness :
    (runEvents initState (["H", "e"].map mkTextDelta)).2 =
      answersFrom initState.answer_text ["H", "e"] :=
  C2_answer_deltas_append.1 initState ["H", "e"] (by decide)

set_option maxRecDepth 16000 in
/-- C4 (counterexample): the universal protection claim fails: in
`"SELECT '& DELETE' FROM t"` the only `DELETE` lies inside the single-quoted
literal, yet after HTML escaping the string-protection regex
`&#x27;[^&]*?&#x27;` cannot match a literal containing `&`, so that `DELETE`
is recolored as a keyword. -/
theorem C4_counterexample :
    _highlight_sql c4AmpInput = c4AmpOutput ∧
    countSubstr c4AmpOutput (kwOpen ++ "DELETE" ++ spanClose) = 1 := by
  constructor
  · decide
  · decide

set_option maxRecDepth 16000 in
/-- C4 (amended): highlighting `"SELECT 'SELECT' FROM t -- SELECT"` colors
exactly one `SELECT` occurrence as a keyword (the real token), and renders
the string literal and the comment text verbatim inside string/comment
spans, un-substituted; literals and comments actually captured by the
placeholder pass are protected from the keyword/function/number passes, but
a single-quoted literal whose content contains an HTML-escaped character
such as `&` is not captured and its characters can be keyword-colored. -/
theorem C4_highlight_example :
    _highlight_sql c4Input = c4Expected ∧
    countSubstr c4Expected (kwOpen ++ "SELECT" ++ spanClose) = 1 ∧
    countSubstr c4Expected (spanString "&#x27;SELECT&#x27;") = 1 ∧
    countSubstr c4Expected (spanComment "-- SELECT") = 1 := by
  refine ⟨by decide, by decide, by decide, by decide⟩

/-- C6: a tool-result payload nesting `{"sql": "SELECT 1"}` three levels
deep makes the nested search find `"SELECT 1"` and the reducer emit exactly
a `("sql", "SELECT 1")` tuple; a payload whose `query` field holds the
natural-language text `"look up the broker"` (which fails `_is_sql`) makes
the reducer emit exactly a `status` tuple with that text and no `sql`
tuple. -/
theorem C6_nested_sql_and_description :
    find_sql_in_data c6SqlPayload 0 = some "SELECT 1" ∧
    (runEvents initState [c6SqlEvent]).2 = [("sql", "SELECT 1")] ∧
    _is_sql (.jstr "look up the broker") = false ∧
    (runEvents initState [c6QueryEvent]).2 = [("status", "look up the broker")] := by
  refine ⟨by decide, by decide, by decide, by decide⟩

/-- C5: for the status-message sequence
`["Planning...", "Planning...", "Executing tool"]` exactly 2 status tuples
are emitted by the reducer and exactly 2 steps are appended by the consumer;
and in general a status event whose message equals the immediately preceding
emitted status (tracked in `last_status`) and whose payload carries no other
description or SQL is dropped: nothing is emitted and the state is
unchanged. -/
theorem C5_duplicate_status_suppressed :
    (runEvents initState c5Events).2 =
      [("status", "Planning..."), ("status", "Executing tool")] ∧
    (runConsumer (runEvents initState c5Events).2).steps =
      [⟨"planning", "Planning...", ""⟩, ⟨"tool", "Executing tool", ""⟩] ∧
    (∀ (st : StreamState) (m : String), st.last_status = m →
      _is_sql_str (pyStrip m) = false →
      processParsed st "response.status" (.jobj [("message", .jstr m)]) = (st, [])) := by
  refine ⟨by decide, by decide, ?_⟩
  intro st m hlast hsql
  subst hlast
  simp [processParsed, statusArm, statusBranch, messagePart, descSqlOutputs, descPart,
        sqlPart, find_description_in_data, find_desc_go, firstNamedDesc, findSomeTruthy,
        find_sql_in_data, find_sql_go, firstNamedSql, lookupField, hsql]

/-- C5 witness: a reducer whose last emitted status is `"Planning..."` drops
a fresh `"Planning..."` status event. -/
theorem C5_duplicate_status_suppressed_witness :
    processParsed ⟨"", "", "Planning..."⟩ "response.status"
      (.jobj [("message", .jstr "Planning...")]) = (⟨"", "", "Planning..."⟩, []) :=
  C5_duplicate_status_suppressed.2.2 ⟨"", "", "Planning..."⟩ "Planning..." rfl (by decide)

/-- C7: `_is_sql` returns false for every non-string and for the empty
string, and for every other string returns true iff the string, stripped and
upper-cased, starts with one of the fixed keywords of `_SQL_STARTS`; in
particular it accepts `"  select 1"` and `"WITH x AS (...) SELECT * FROM x"`
and rejects `""`, `None` and `"please run a report"`. -/
theorem C7_is_sql_contract :
    (∀ v : JVal, (∀ s, v ≠ .jstr s) → _is_sql v = false) ∧
    _is_sql (.jstr "") = false ∧
    (∀ s : String, s ≠ "" →
      (_is_sql (.jstr s) = true ↔
        ∃ kw ∈ _SQL_STARTS, pyStartsWith (pyUpper (pyStrip s)) kw = true)) ∧
    _is_sql (.jstr "  select 1") = true ∧
    _is_sql (.jstr "WITH x AS (...) SELECT * FROM x") = true ∧
    _is_sql .jnull = false ∧
    _is_sql (.jstr "please run a report") = false := by
  refine ⟨?_, by decide, ?_, by decide, by decide, by decide, by decide⟩
  · intro v h
    cases v <;> simp [_is_sql] at h ⊢
  · intro s h
    simp [_is_sql, _is_sql_str, h, List.any_eq_true]

/-- C7 witness: the contract applied to the non-string `True` and to the
concrete string `"  select 1"`. -/
theorem C7_is_sql_contract_witness :
    _is_sql (.jbool true) = false ∧
    (_is_sql (.jstr "  select 1") = true ↔
      ∃ kw ∈ _SQL_STARTS, pyStartsWith (pyUpper (pyStrip "  select 1")) kw = true) :=
  ⟨C7_is_sql_contract.1 (.jbool true) (fun s => by simp),
   C7_is_sql_contract.2.2.1 "  select 1" (by decide)⟩

/-- C8: with `SNOWFLAKE_HOST` unset the reducer yields exactly one tuple —
an answer whose message contains `"unavailable"` — and the result does not
depend on the transport argument at all (no HTTP connection is consulted);
likewise a missing credential file yields a single explanatory answer tuple
independent of the transport. -/
theorem C8_missing_config :
    (∀ (q ctx : String) (tok : TokenRead) (http : HttpStreamResult),
      call_cortex_agent_streaming q ctx none tok http =
        ([("answer", "Agent unavailable — SNOWFLAKE_HOST not set.")], none)) ∧
    strContains "Agent unavailable — SNOWFLAKE_HOST not set." "unavailable" = true ∧
    (∀ (q ctx h : String), h ≠ "" → ∀ http : HttpStreamResult,
      call_cortex_agent_streaming q ctx (some h) .fileNotFound http =
        ([("answer", "Agent unavailable — session token not found.")], none)) := by
  refine ⟨fun q ctx tok http => rfl, by decide, ?_⟩
  intro q ctx h hne http
  simp [call_cortex_agent_streaming, hne]

/-- C8 witness: concrete instances of both configuration failures. -/
theorem C8_missing_config_witness :
    call_cortex_agent_streaming "q" "" none (.ok "tok") (.response 200 []) =
      ([("answer", "Agent unavailable — SNOWFLAKE_HOST not set.")], none) ∧
    call_cortex_agent_streaming "q" "" (some "host.example") .fileNotFound
        (.response 200 []) =
      ([("answer", "Agent unavailable — session token not found.")], none) :=
  ⟨C8_missing_config.1 "q" "" (.ok "tok") (.response 200 []),
   C8_missing_config.2.2 "q" "" "host.example" (by decide) (.response 200 [])⟩

/-- C9: both nested searches are total Lean functions (termination by
construction), are read-only, return at most one match as an `Option`, and
are depth-capped: beyond source depth 5 they return `none`, so a value
nested seven levels deep is not found while the same value five levels deep
is; with no match they return `none` rather than failing. -/
theorem C9_searches_depth_bounded :
    (∀ (v : JVal) (d : Nat), 5 < d →
      find_sql_in_data v d = none ∧ find_description_in_data v d = none) ∧
    find_sql_in_data c9Deep7 0 = none ∧
    find_sql_in_data c9Deep5 0 = some "SELECT 1" ∧
    find_description_in_data c9DeepDesc7 0 = none ∧
    find_sql_in_data (.jobj []) 0 = none ∧
    find_description_in_data (.jobj []) 0 = none := by
  refine ⟨?_, by decide, by decide, by decide, by decide, by decide⟩
  intro v d hd
  simp [find_sql_in_data, find_description_in_data, hd]

/-- C9 witness: the cap applied at depth 6 to a payload that would otherwise
match. -/
theorem C9_searches_depth_bounded_witness :
    find_sql_in_data (.jstr "SELECT 1") 6 = none ∧
    find_description_in_data (.jstr "SELECT 1") 6 = none :=
  C9_searches_depth_bounded.1 (.jstr "SELECT 1") 6 (by decide)

/-- Every string returned by the named-key probes passed the SQL check. -/
theorem firstNamedSql_isSql : ∀ (keys : List String) (fs : List (String × JVal)) (s : String),
    firstNamedSql fs keys = some s → _is_sql_str s = true := by
  intro keys
  induction keys with
  | nil => intro fs s h; simp [firstNamedSql] at h
  | cons k ks ih =>
    intro fs s h
    unfold firstNamedSql at h
    split at h
    next v hv =>
      split at h
      next hcond =>
        split at h
        next s' =>
          cases h
          simp [Bool.and_eq_true, _is_sql] at hcond
          exact hcond.2
        next => cases h
      next => exact ih fs s h
    next => exact ih fs s h

/-- The recursive value scan only returns strings its argument vouches for. -/
theorem findSomeTruthy_isSql (f : JVal → Option String)
    (hf : ∀ v s, f v = some s → _is_sql_str s = true) :
    ∀ (l : List JVal) (s : String), findSomeTruthy f l = some s → _is_sql_str s = true := by
  intro l
  induction l with
  | nil => intro s h; simp [findSomeTruthy] at h
  | cons v rest ih =>
    intro s h
    unfold findSomeTruthy at h
    split at h
    next r heq =>
      split at h
      · cases h; exact hf v _ heq
      · exact ih _ h
    next => exact ih _ h

/-- Every string found by the fueled SQL search passes `_is_sql_str`. -/
theorem find_sql_go_isSql : ∀ (fuel : Nat) (v : JVal) (s : String),
    find_sql_go fuel v = some s → _is_sql_str s = true := by
  intro fuel
  induction fuel with
  | zero => intro v s h; simp [find_sql_go] at h
  | succ n ih =>
    intro v s h
    cases v with
    | jstr str =>
      cases hq : _is_sql_str (pyStrip str)
      · simp [find_sql_go, hq] at h
      · simp [find_sql_go, hq] at h
        rw [← h]; exact hq
    | jobj fs =>
      simp only [find_sql_go] at h
      split at h
      next r heq => cases h; exact firstNamedSql_isSql _ _ _ heq
      next heq =>
        split at h
        next r heq2 => cases h; exact firstNamedSql_isSql _ _ _ heq2
        next heq2 => exact findSomeTruthy_isSql _ (fun v s => ih v s) _ _ h
    | jarr items =>
      simp only [find_sql_go] at h
      exact findSomeTruthy_isSql _ (fun v s => ih v s) _ _ h
    | jnull => simp [find_sql_go] at h
    | jbool b => simp [find_sql_go] at h
    | jnum nn => simp [find_sql_go] at h

/-- Every string found by `find_sql_in_data` passes `_is_sql_str`. -/
theorem find_sql_in_data_isSql (v : JVal) (d : Nat) (s : String)
    (h : find_sql_in_data v d = some s) : _is_sql_str s = true := by
  unfold find_sql_in_data at h
  split at h
  · cases h
  · exact find_sql_go_isSql _ _ _ h

/-- Every `sql` tuple produced by `sqlPart` carries a string passing the
detector. -/
theorem sqlPart_isSql (pj : JVal) (s : String)
    (h : ("sql", s) ∈ sqlPart pj) : _is_sql_str s = true := by
  unfold sqlPart at h
  split at h
  next r heq =>
    split at h
    · simp at h
      rw [h]
      exact find_sql_in_data_isSql _ _ _ heq
    · simp at h
  next => simp at h

/-- `descPart` emits only `status` tuples. -/
theorem descPart_status (st : StreamState) (pj : JVal) (p : String × String)
    (h : p ∈ (descPart st pj).2) : p.1 = "status" := by
  unfold descPart at h
  split at h
  next d heq =>
    split at h
    · simp at h; rw [h]
    · simp at h
  next => simp at h

/-- Every `sql` tuple of the shared desc/sql probing passes the detector. -/
theorem descSqlOutputs_sql (st : StreamState) (pj : JVal) (s : String)
    (h : ("sql", s) ∈ (descSqlOutputs st pj).2) : _is_sql_str s = true := by
  unfold descSqlOutputs at h
  simp only [List.mem_append] at h
  rcases h with h | h
  · have := descPart_status _ _ _ h
    simp at this
  · exact sqlPart_isSql _ _ h

/-- `messagePart` emits only `status` tuples. -/
theorem messagePart_status (st : StreamState) (fs : List (String × JVal)) (p : String × String)
    (h : p ∈ (messagePart st fs).2) : p.1 = "status" := by
  unfold messagePart at h
  split at h <;> dsimp only at h <;> split at h <;> simp at h <;> rw [h]

/-- Every `sql` tuple of the status branch passes the detector. -/
theorem statusBranch_sql (st : StreamState) (fs : List (String × JVal)) (s : String)
    (h : ("sql", s) ∈ (statusBranch st fs).2) : _is_sql_str s = true := by
  unfold statusBranch at h
  simp only [List.mem_append] at h
  rcases h with h | h
  · have := messagePart_status _ _ _ h
    simp at this
  · exact descSqlOutputs_sql _ _ _ (by simpa [descSqlOutputs, List.mem_append] using h)

/-- The `message.delta` content loop emits only `answer` tuples. -/
theorem messageDeltaItems_answer : ∀ (items : List JVal) (st : StreamState) (p : String × String),
    p ∈ (messageDeltaItems st items).2 → p.1 = "answer" := by
  intro items
  induction items with
  | nil => intro st p h; simp [messageDeltaItems] at h
  | cons item rest ih =>
    intro st p h
    unfold messageDeltaItems at h
    split at h
    next ifs =>
      split at h
      next htt =>
        split at h
        next t =>
          split at h
          next ht =>
            simp only [List.mem_cons] at h
            rcases h with h | h
            · rw [h]
            · exact ih _ _ h
          next => exact ih _ _ h
        next v hv =>
          split at h
          · simp at h
          · exact ih _ _ h
      next => exact ih _ _ h
    next => exact ih _ _ h

/-- The dict-shaped content handler emits only `answer` tuples. -/
theorem contentDictText_answer (st : StreamState) (cfs : List (String × JVal))
    (p : String × String) (h : p ∈ (contentDictText st cfs).2) : p.1 = "answer" := by
  unfold contentDictText at h
  split at h
  · split at h
    next t =>
      split at h
      · simp at h; rw [h]
      · simp at h
    next => split at h <;> simp at h
  · simp at h

/-- The final `response` loop emits only `answer` tuples. -/
theorem responseItems_answer : ∀ (items : List JVal) (st : StreamState) (p : String × String),
    p ∈ (responseItems st items).2 → p.1 = "answer" := by
  intro items
  induction items with
  | nil => intro st p h; simp [responseItems] at h
  | cons item rest ih =>
    intro st p h
    unfold responseItems at h
    split at h
    next ifs =>
      split at h
      next htt =>
        split at h
        next t =>
          split at h
          next ht =>
            simp only [List.mem_cons] at h
            rcases h with h | h
            · rw [h]
            · exact ih _ _ h
          next => exact ih _ _ h
        next => exact ih _ _ h
      next => exact ih _ _ h
    next => exact ih _ _ h

/-- The `delta` fallback branch emits only `answer` tuples. -/
theorem deltaFallback_answer (st : StreamState) (pj : JVal)
    (p : String × String) (h : p ∈ (deltaFallback st pj).2) : p.1 = "answer" := by
  unfold deltaFallback at h
  split at h
  next fs =>
    split at h
    next dfs =>
      split at h
      next cfs => exact contentDictText_answer _ _ _ h
      next str => simp at h; rw [h]
      next => simp at h
    next str => simp at h; rw [h]
    next => simp at h
    next => simp at h
  next => simp at h

/-- Every `sql` tuple of the status arm passes the detector. -/
theorem statusArm_sql (st : StreamState) (pj : JVal) (s : String)
    (h : ("sql", s) ∈ (statusArm st pj).2) : _is_sql_str s = true := by
  unfold statusArm at h
  split at h
  · exact statusBranch_sql _ _ _ h
  · simp at h

/-- The thinking arm emits only `thinking` tuples. -/
theorem thinkingArm_not_sql (st : StreamState) (pj : JVal) (p : String × String)
    (h : p ∈ (thinkingArm st pj).2) : p.1 = "thinking" := by
  unfold thinkingArm at h
  split at h
  · split at h
    · split at h
      · simp at h; rw [h]
      · simp at h
    · simp at h
  · simp at h

/-- The answer-delta arm emits only `answer` tuples. -/
theorem textDeltaArm_answer (st : StreamState) (pj : JVal) (p : String × String)
    (h : p ∈ (textDeltaArm st pj).2) : p.1 = "answer" := by
  unfold textDeltaArm at h
  split at h
  · split at h
    · split at h
      · simp at h; rw [h]
      · simp at h
    · simp at h
  · simp at h

/-- The `message.delta` arm emits only `answer` tuples. -/
theorem messageDeltaArm_answer (st : StreamState) (pj : JVal) (p : String × String)
    (h : p ∈ (messageDeltaArm st pj).2) : p.1 = "answer" := by
  unfold messageDeltaArm at h
  split at h
  · split at h
    · split at h
      · exact messageDeltaItems_answer _ _ _ h
      · exact contentDictText_answer _ _ _ h
      · simp at h
    · simp at h
  · simp at h

/-- The final `response` arm emits only `answer` tuples. -/
theorem responseArm_answer (st : StreamState) (pj : JVal) (p : String × String)
    (h : p ∈ (responseArm st pj).2) : p.1 = "answer" := by
  unfold responseArm at h
  split at h
  · split at h
    · split at h
      · exact responseItems_answer _ _ _ h
      · simp at h
    · simp at h
  · simp at h

/-- Every `sql` tuple emitted by the dispatch passes the detector. -/
theorem processParsed_sql (st : StreamState) (et : String) (pj : JVal) (s : String)
    (h : ("sql", s) ∈ (processParsed st et pj).2) : _is_sql_str s = true := by
  unfold processParsed at h
  split at h
  · exact statusArm_sql _ _ _ h
  · split at h
    · have := thinkingArm_not_sql _ _ _ h
      simp at this
    · split at h
      · exact statusArm_sql _ _ _ h
      · split at h
        · exact descSqlOutputs_sql _ _ _ h
        · split at h
          · exact descSqlOutputs_sql _ _ _ h
          · split at h
            · exact descSqlOutputs_sql _ _ _ h
            · split at h
              · have := textDeltaArm_answer _ _ _ h
                simp at this
              · split at h
                · have := messageDeltaArm_answer _ _ _ h
                  simp at this
                · split at h
                  · have := responseArm_answer _ _ _ h
                    simp at this
                  · split at h
                    · have := deltaFallback_answer _ _ _ h
                      simp at this
                    · exact sqlPart_isSql _ _ h

/-- Every `sql` tuple emitted for one event passes the detector. -/
theorem processSSE_sql (st : StreamState) (ev : SSEvent) (s : String)
    (h : ("sql", s) ∈ (processSSE st ev).2) : _is_sql_str s = true := by
  unfold processSSE at h
  split at h
  · simp at h
  · split at h
    · simp at h
    · exact processParsed_sql _ _ _ _ h

/-- Every `sql` tuple emitted over a whole stream passes the detector. -/
theorem runEvents_sql : ∀ (events : List SSEvent) (st : StreamState) (s : String),
    ("sql", s) ∈ (runEvents st events).2 → _is_sql_str s = true := by
  intro events
  induction events with
  | nil => intro st s h; simp [runEvents] at h
  | cons ev rest ih =>
    intro st s h
    unfold runEvents at h
    simp only [List.mem_append] at h
    rcases h with h | h
    · exact processSSE_sql _ _ _ h
    · exact ih _ _ h

/-- C10: every `("sql", s)` tuple ever yielded by
`call_cortex_agent_streaming` — from any event branch, including the
catch-all scan of unrecognized event kinds — carries a string that passes
`_is_sql`: stripped and upper-cased it starts with one of the fixed SQL
statement keywords. -/
theorem C10_sql_tuples_satisfy_detector :
    ∀ (q ctx : String) (host : Option String) (tok : TokenRead)
      (http : HttpStreamResult) (s : String),
      ("sql", s) ∈ (call_cortex_agent_streaming q ctx host tok http).1 →
      _is_sql (.jstr s) = true := by
  intro q ctx host tok http s h
  show _is_sql_str s = true
  unfold call_cortex_agent_streaming at h
  cases host with
  | none => simp at h
  | some hst =>
    by_cases hh : hst = ""
    · simp [hh] at h
    · simp only [hh, if_neg, ite_false] at h
      cases tok with
      | fileNotFound => simp at h
      | otherError e => simp at h
      | ok t =>
        cases http with
        | timeout pre =>
          simp only [List.mem_append] at h
          rcases h with h | h
          · exact runEvents_sql _ _ _ h
          · simp at h
        | error pre e =>
          simp only [List.mem_append] at h
          rcases h with h | h
          · exact runEvents_sql _ _ _ h
          · simp at h
        | response code events =>
          by_cases hc : code ≠ 200
          · simp [hc] at h
          · simp only [hc, ite_false, ite_true, if_neg, if_pos] at h
            simp only [List.mem_append] at h
            rcases h with h | h
            · exact runEvents_sql _ _ _ h
            · split at h <;> simp at h

/-- C10 witness: a stream delivering one tool-result event with an embedded
query does yield a `sql` tuple, and the invariant instantiates to it. -/
theorem C10_sql_tuples_satisfy_detector_witness :
    ("sql", "SELECT 7") ∈
      (call_cortex_agent_streaming "q" "" (some "host.example") (.ok "tok")
        (.response 200
          [⟨"response.tool_result", "\x7b\x22sql\x22: \x22SELECT 7\x22\x7d",
            some (.jobj [("sql", .jstr "SELECT 7")])⟩])).1 ∧
    _is_sql (.jstr "SELECT 7") = true :=
  ⟨by decide,
   C10_sql_tuples_satisfy_detector "q" "" (some "host.example") (.ok "tok")
     (.response 200
       [⟨"response.tool_result", "\x7b\x22sql\x22: \x22SELECT 7\x22\x7d",
         some (.jobj [("sql", .jstr "SELECT 7")])⟩]) "SELECT 7" (by decide)⟩

/-- C3 (counterexample): a token file that exists but cannot be read raises
`PermissionError`, which the source catches nowhere (`except
FileNotFoundError` only): the exception propagates to the caller instead of
degrading to an answer tuple. -/
theorem C3_counterexample :
    (call_cortex_agent_streaming "q" "" (some "host.example")
      (.otherError "PermissionError: [Errno 13] Permission denied: /snowflake/session/token")
      (.response 200 [])).2 =
    some "PermissionError: [Errno 13] Permission denied: /snowflake/session/token" := by
  decide

/-- C3 (amended): for every question and context, as long as reading the
token file does not raise anything other than `FileNotFoundError`, neither
the streaming call nor the non-streaming fallback propagates an exception:
missing host, missing token file, non-200 status, timeout and any other
transport failure all degrade to a yielded answer tuple or a returned
descriptive string. -/
theorem C3_no_exception_outside_token_read :
    ∀ (q ctx : String) (host : Option String) (tok : TokenRead)
      (hs : HttpStreamResult) (hj : HttpJsonResult),
      (∀ e, tok ≠ .otherError e) →
      (call_cortex_agent_streaming q ctx host tok hs).2 = none ∧
      ∃ r, call_cortex_agent q ctx host tok hj = .ok r := by
  intro q ctx host tok hs hj htok
  cases host with
  | none => exact ⟨rfl, _, rfl⟩
  | some h =>
    by_cases hh : h = ""
    · subst hh
      exact ⟨rfl, _, rfl⟩
    · cases tok with
      | otherError e => exact absurd rfl (htok e)
      | fileNotFound =>
        refine ⟨?_, ?_⟩
        · simp [call_cortex_agent_streaming, hh]
        · simp only [call_cortex_agent, if_neg hh]
          exact ⟨_, rfl⟩
      | ok t =>
        refine ⟨?_, ?_⟩
        · cases hs with
          | timeout pre => simp [call_cortex_agent_streaming, hh]
          | error pre e => simp [call_cortex_agent_streaming, hh]
          | response code events =>
            simp only [call_cortex_agent_streaming, if_neg hh]
            split <;> rfl
        · cases hj with
          | timeout =>
            simp only [call_cortex_agent, if_neg hh]
            exact ⟨_, rfl⟩
          | error e =>
            simp only [call_cortex_agent, if_neg hh]
            exact ⟨_, rfl⟩
          | response code body =>
            simp only [call_cortex_agent, if_neg hh]
            by_cases hc : code ≠ 200
            · rw [if_pos hc]; exact ⟨_, rfl⟩
            · rw [if_neg hc]
              cases body with
              | none => exact ⟨_, rfl⟩
              | some data =>
                dsimp only
                cases hx : extract_answer data <;> exact ⟨_, rfl⟩

/-- C3 witness: both calls succeed without raising on a healthy
configuration. -/
theorem C3_no_exception_outside_token_read_witness :
    (call_cortex_agent_streaming "q" "" (some "host.example") (.ok "tok")
        (.response 200 [])).2 = none ∧
    ∃ r, call_cortex_agent "q" "" (some "host.example") (.ok "tok")
        (.response 200 none) = .ok r :=
  C3_no_exception_outside_token_read "q" "" (some "host.example") (.ok "tok")
    (.response 200 []) (.response 200 none) (fun e => by simp)

end LoadStar
